import Mathlib

/-!
Shallow embedding of the DJI thermal converter pipeline
(`src/config.py`, `src/dji_thermal_converter.py`).

Conventions of the embedding:
* Python floats are modelled as rationals (`ℚ`) for the fixed-point
  scaling path and as reals (`ℝ`) for the synthetic temperature field
  (which uses `exp`/`sqrt`).
* `numpy`'s `astype(np.int16)` on a float array is a C-style cast:
  truncation toward zero followed by a two's-complement wrap into
  16 bits.  It is modelled by `ratTrunc` composed with `castInt16`.
* Fallible external calls (directory creation, PIL image construction,
  the final TIFF write, the temperature extraction) are modelled by an
  explicit environment of boolean failure flags; a Python `raise`
  becomes an `Except.error` and the enclosing `try/except` is the
  total wrapper that maps it to `false`.
* A Python function that raises `ValueError`/`KeyError` is modelled as
  an `Option`-returning function (`none` = raise).
-/

namespace ThermalConverter

/-! ### config.py : `Config` -/

/-- Python `str.upper()` restricted to what `Char.toUpper` covers
(ASCII, which is all the model ids use). -/
def pyUpper (s : String) : String := ⟨s.data.map Char.toUpper⟩

/-- One entry of `Config.DRONE_MODELS` (`src/config.py`, lines 18-59). -/
structure DroneModelConfig where
  name : String
  temperature_range : ℚ × ℚ
  resolution : ℕ × ℕ
  pixel_size : ℚ
  format_support : List String
  spectral_range : ℚ × ℚ
  thermal_sensitivity : ℚ
  description : String
deriving DecidableEq

def M30T_config : DroneModelConfig :=
  ⟨"大疆 M30T", (-20, 400), (640, 512), 12, ["jpg", "jpeg"], (8, 14), 1/20,
   "大疆M30T无人机内置热红外相机"⟩

def H20T_config : DroneModelConfig :=
  ⟨"大疆 H20T", (-20, 550), (640, 512), 12, ["jpg", "jpeg"], (8, 14), 1/20,
   "大疆H20T热红外云台相机"⟩

def H30T_config : DroneModelConfig :=
  ⟨"大疆 H30T", (-20, 1600), (640, 512), 12, ["jpg", "jpeg"], (8, 14), 1/20,
   "大疆H30T高温热红外云台相机"⟩

def M2EA_config : DroneModelConfig :=
  ⟨"大疆 御2行业进阶版", (-10, 400), (640, 512), 17, ["jpg", "jpeg"], (8, 14), 1/10,
   "大疆御2行业进阶版热红外相机"⟩

/-- The key set of `Config.DRONE_MODELS`. -/
def droneModelIds : List String := ["M30T", "H20T", "H30T", "M2EA"]

/-- `Config.get_model_config` (`src/config.py`, lines 97-112):
uppercases the id, then looks it up in the fixed dictionary;
`none` models the `ValueError` raised for an unknown model. -/
def get_model_config (model : String) : Option DroneModelConfig :=
  let m := pyUpper model
  if m = "M30T" then some M30T_config
  else if m = "H20T" then some H20T_config
  else if m = "H30T" then some H30T_config
  else if m = "M2EA" then some M2EA_config
  else none

/-- `Config.validate_temperature_range` (`src/config.py`, lines 124-138):
`none` models the `ValueError` propagated from `get_model_config`;
otherwise the inclusive range check on the model's bounds. -/
def validate_temperature_range (temperature : ℚ) (model : String) : Option Bool :=
  (get_model_config model).map fun config =>
    decide (config.temperature_range.1 ≤ temperature ∧
            temperature ≤ config.temperature_range.2)

/-! ### Fixed-point scaling: `(temperature_data * 10).astype(np.int16)` -/

/-- Truncation toward zero, the rounding C (and hence `numpy`'s
`astype`) applies when casting a float to an integer type. -/
def ratTrunc (q : ℚ) : ℤ := q.num.tdiv q.den

/-- Two's-complement wrap of an integer into the `int16` range,
the effect of narrowing the truncated value to 16 bits. -/
def castInt16 (z : ℤ) : ℤ := (z + 32768) % 65536 - 32768

/-- The persisted raster value for one float temperature `t`:
`numpy` evaluates `(t * 10).astype(np.int16)`
(`src/dji_thermal_converter.py`, line 323). -/
def stored_value (t : ℚ) : ℤ := castInt16 (ratTrunc (t * 10))

/-- Reading the persisted 16-bit value back and dividing by 10
(the reconstruction the spec's round-trip law talks about). -/
def decoded_value (t : ℚ) : ℚ := (stored_value t : ℚ) / 10

/-- `round(t * 10)` — the scaling the spec claims; modelled from the
spec, to be compared against `stored_value`. -/
def spec_scaled (t : ℚ) : ℤ := round (t * 10)

/-! ### dji_thermal_converter.py : `save_temperature_tiff` -/

/-- `(temperature_data * 10).astype(np.int16)` applied to the whole
grid (`src/dji_thermal_converter.py`, line 323); the grid is the
row-major list of rows. -/
def scaleGrid (grid : List (List ℚ)) : List (List ℤ) :=
  grid.map fun row => row.map stored_value

/-- The fallible external calls made inside the `try` block of
`save_temperature_tiff`, as an abstract environment: whether
`os.makedirs` raises, whether `Image.fromarray` raises, and whether
`pil_image.save` raises (the latter covers both an unknown
compression value and a write I/O error). -/
structure SaveEnv where
  mkdirFails : Bool
  fromarrayFails : Bool
  pilSaveFails : Bool
deriving DecidableEq

/-- The environment in which every external call succeeds. -/
def cleanSaveEnv : SaveEnv := ⟨false, false, false⟩

inductive SaveError where
  | mkdirError
  | fromarrayError
  | writeError
deriving DecidableEq

/-- The body of the `try` block of `save_temperature_tiff`
(`src/dji_thermal_converter.py`, lines 312-345): create the output
directory, scale the grid, build the PIL image, write the TIFF.
There is no overflow check anywhere on this path; an `Except.error`
models a Python exception escaping the step. On success the scaled
raster is what the written file holds. -/
def save_inner (env : SaveEnv) (grid : List (List ℚ)) :
    Except SaveError (List (List ℤ)) :=
  if env.mkdirFails then .error .mkdirError
  else
    let temp_scaled := scaleGrid grid
    if env.fromarrayFails then .error .fromarrayError
    else if env.pilSaveFails then .error .writeError
    else .ok temp_scaled

/-- `save_temperature_tiff` (`src/dji_thermal_converter.py`, lines
298-349): the whole body is wrapped in `try/except`; any exception is
caught and mapped to `False`, success returns `True`. -/
def save_temperature_tiff (env : SaveEnv) (grid : List (List ℚ)) : Bool :=
  match save_inner env grid with
  | .ok _ => true
  | .error _ => false

/-- The raster persisted by a successful save (`none` when the save
failed and no file was produced at the output path). -/
def savedRaster (env : SaveEnv) (grid : List (List ℚ)) :
    Option (List (List ℤ)) :=
  (save_inner env grid).toOption

/-! ### dji_thermal_converter.py : `convert_rjpeg_to_tiff` -/

/-- Environment of a single-file conversion: whether
`extract_temperature_data` raises (file unreadable, etc.), and the
save environment. -/
structure ConvertEnv where
  extractFails : Bool
  save : SaveEnv
deriving DecidableEq

/-- `convert_rjpeg_to_tiff` (`src/dji_thermal_converter.py`, lines
351-379): extracts the grid, then saves it; the body is wrapped in
`try/except` so an extraction exception yields `False` rather than
propagating. `grid` is the temperature grid the extraction would
produce when it succeeds. -/
def convert_rjpeg_to_tiff (env : ConvertEnv) (grid : List (List ℚ)) : Bool :=
  if env.extractFails then false
  else save_temperature_tiff env.save grid

/-! ### dji_thermal_converter.py : `batch_convert` -/

/-- The outcome of processing one discovered candidate file inside
the batch loop: the conversion returned `True`, returned `False`, or an
exception was raised while building paths / converting (caught by the
inner `except`). -/
inductive JobOutcome where
  | converted
  | notConverted
  | raised
deriving DecidableEq

def JobOutcome.isSuccess : JobOutcome → Bool
  | .converted => true
  | _ => false

/-- The `results` dictionary of `batch_convert`. -/
structure BatchResult where
  success : ℕ
  failed : ℕ
  total : ℕ
deriving DecidableEq

/-- One iteration of the conversion loop (`src/dji_thermal_converter.py`,
lines 414-431): a successful conversion increments `success`; a `False`
return or a raised exception increments `failed`; the loop always
continues to the next file. -/
def batch_step (r : BatchResult) : JobOutcome → BatchResult
  | .converted => { r with success := r.success + 1 }
  | .notConverted => { r with failed := r.failed + 1 }
  | .raised => { r with failed := r.failed + 1 }

/-- `batch_convert` (`src/dji_thermal_converter.py`, lines 381-438).
`discovery` is the result of the file-discovery walk: `none` models an
exception during discovery (caught by the outer `except`, returning
the initial zero counts), `some jobs` the list of discovered candidate
files together with what happens to each. `total` is set from the
length of the discovered list before the loop starts and never
touched again. -/
def batch_convert (discovery : Option (List JobOutcome)) : BatchResult :=
  match discovery with
  | none => { success := 0, failed := 0, total := 0 }
  | some jobs =>
    jobs.foldl batch_step { success := 0, failed := 0, total := jobs.length }

/-! ### dji_thermal_converter.py : converter state and device table -/

/-- One entry of `DJIThermalConverter.device_configs`
(`src/dji_thermal_converter.py`, lines 45-70).  Note this table is
distinct from `Config.DRONE_MODELS` in `src/config.py`; in particular
M30T's resolution here is `(1280, 1024)`. -/
structure ConvDeviceConfig where
  name : String
  temperature_range : ℚ × ℚ
  resolution : ℕ × ℕ
  description : String
deriving DecidableEq

/-- `self.device_configs[model]` as a total lookup (`none` models a
`KeyError`). -/
def conv_device_config (model : String) : Option ConvDeviceConfig :=
  if model = "M30T" then
    some ⟨"大疆 M30T", (-20, 400), (1280, 1024), "大疆M30T无人机内置热红外相机"⟩
  else if model = "H20T" then
    some ⟨"大疆 H20T", (-20, 550), (640, 512), "大疆H20T热红外云台相机"⟩
  else if model = "H30T" then
    some ⟨"大疆 H30T", (-20, 1600), (640, 512), "大疆H30T高温热红外云台相机"⟩
  else if model = "M2EA" then
    some ⟨"大疆 御2行业进阶版", (-10, 400), (640, 512), "大疆御2行业进阶版热红外相机"⟩
  else none

/-- The mutable converter state the methods read: `self.default_model`
(set to `'M30T'` in `__init__`, line 73). -/
structure ConverterState where
  default_model : String
deriving DecidableEq

/-- The state `__init__` leaves behind. -/
def initState : ConverterState := ⟨"M30T"⟩

/-! ### dji_thermal_converter.py : `_detect_image_resolution` -/

/-- `_detect_image_resolution` (`src/dji_thermal_converter.py`, lines
152-170).  `openResult` is the outcome of `Image.open(path).size`:
`some (w, h)` when the container opens, `none` when any exception is
raised.  On failure the method falls back to
`self.device_configs[self.default_model]['resolution']` (a `KeyError`
there, impossible for `initState`, is modelled as `none`). -/
def detect_image_resolution (st : ConverterState)
    (openResult : Option (ℕ × ℕ)) : Option (ℕ × ℕ) :=
  match openResult with
  | some wh => some wh
  | none => (conv_device_config st.default_model).map fun c => c.resolution

/-! ### dji_thermal_converter.py : `_create_mock_temperature_data` -/

/-- The baseline gradient written by the nested loop
(`src/dji_thermal_converter.py`, line 279):
`20.0 + 20.0 * (i / height) * (j / width)` (Python true division). -/
noncomputable def baseline_temp (width height i j : ℕ) : ℝ :=
  20.0 + 20.0 * ((i : ℝ) / (height : ℝ)) * ((j : ℝ) / (width : ℝ))

/-- `center_x, center_y = width // 2, height // 2` (line 283). -/
def center_x (width : ℕ) : ℕ := width / 2

def center_y (height : ℕ) : ℕ := height / 2

/-- Hot spot 1 (lines 287-288): `60.0 * exp(-distance1 / 50)` with
`distance1 = sqrt((x - center_x)^2 + (y - center_y)^2)`, where `x = j`
and `y = i` in the `ogrid` convention. -/
noncomputable def hot_spot1 (width height i j : ℕ) : ℝ :=
  60.0 * Real.exp (-(Real.sqrt (((j : ℝ) - (center_x width : ℝ)) ^ 2 +
    ((i : ℝ) - (center_y height : ℝ)) ^ 2)) / 50)

/-- Hot spot 2 (lines 291-292): `45.0 * exp(-distance2 / 30)` with
`distance2 = sqrt((x - center_x + 100)^2 + (y - center_y + 100)^2)`. -/
noncomputable def hot_spot2 (width height i j : ℕ) : ℝ :=
  45.0 * Real.exp (-(Real.sqrt (((j : ℝ) - (center_x width : ℝ) + 100) ^ 2 +
    ((i : ℝ) - (center_y height : ℝ) + 100) ^ 2)) / 30)

/-- The pixel value of the mock grid after
`temperature_data += hot_spot1 + hot_spot2` (line 294):
baseline plus the two hot-spot fields.  Real-valued model: the float32
narrowing of the stored array applies identically to code and spec
formulations and is not modelled. -/
noncomputable def mock_entry (width height i j : ℕ) : ℝ :=
  baseline_temp width height i j + (hot_spot1 width height i j + hot_spot2 width height i j)

/-- A temperature grid: dimensions plus the pixel field. -/
structure FloatGrid where
  width : ℕ
  height : ℕ
  entry : ℕ → ℕ → ℝ

/-- `_create_mock_temperature_data` (`src/dji_thermal_converter.py`,
lines 257-296): uses the provided resolution when given, otherwise the
default model's table resolution (`none` models the `KeyError` on an
unknown default model).  There is no validation of the resolution and
no check on the (unused) raw bytes. -/
noncomputable def create_mock_temperature_data (st : ConverterState)
    (resolution : Option (ℕ × ℕ)) : Option FloatGrid :=
  match resolution with
  | some (w, h) => some ⟨w, h, fun i j => mock_entry w h i j⟩
  | none =>
    (conv_device_config st.default_model).map fun c =>
      ⟨c.resolution.1, c.resolution.2,
        fun i j => mock_entry c.resolution.1 c.resolution.2 i j⟩

/-! ### dji_thermal_converter.py : `_parse_rjpeg_with_sdk` -/

/-- `_parse_rjpeg_with_sdk` (`src/dji_thermal_converter.py`, lines
223-255): whether or not the SDK handle is present, the method returns
the mock grid for the given resolution (the SDK branch is an
unimplemented framework that falls through to the mock data, line
255).  The raw bytes are never inspected: no emptiness check, no
resolution validation. -/
noncomputable def parse_rjpeg_with_sdk (st : ConverterState) (sdk_loaded : Bool)
    (rjpeg_data : List (Fin 256)) (resolution : Option (ℕ × ℕ)) :
    Option FloatGrid :=
  if sdk_loaded then create_mock_temperature_data st resolution
  else create_mock_temperature_data st resolution

/-! ### Spec-side formulation of the synthetic field (for the
refinement claim about the generator) -/

/-- Modelled from the spec (§4.3, SyntheticGenerator): the per-pixel
sum `baseline + hot-spot1 + hot-spot2` written as one closed formula,
with `cx = width/2`, `cy = height/2` by integer division and hot-spot
2's center shifted by `(-100, -100)`. -/
noncomputable def spec_synthetic_entry (width height i j : ℕ) : ℝ :=
  20.0 + 20.0 * ((i : ℝ) / (height : ℝ)) * ((j : ℝ) / (width : ℝ)) +
    60.0 * Real.exp (-(Real.sqrt (((j : ℝ) - (width / 2 : ℕ)) ^ 2 +
      ((i : ℝ) - (height / 2 : ℕ)) ^ 2)) / 50) +
    45.0 * Real.exp (-(Real.sqrt (((j : ℝ) - (width / 2 : ℕ) + 100) ^ 2 +
      ((i : ℝ) - (height / 2 : ℕ) + 100) ^ 2)) / 30)

end ThermalConverter

namespace ThermalConverter

/-! ## Theorems -/

/-- C4: for every positive width and height the generated grid exists
and every pixel `(i, j)` equals the spec's closed formula: baseline
gradient `20 + 20*(i/height)*(j/width)` plus the two radial hot-spots
centered at `(width/2, height/2)` (integer division) and at that
center shifted by `(-100, -100)`, with no clamping. -/
theorem synthetic_entry_matches_spec_formula (st : ConverterState)
    (width height : ℕ) (hw : 0 < width) (hh : 0 < height) :
    ∃ g : FloatGrid,
      create_mock_temperature_data st (some (width, height)) = some g ∧
      g.width = width ∧ g.height = height ∧
      ∀ i j : ℕ, g.entry i j = spec_synthetic_entry width height i j := by
  refine ⟨_, rfl, rfl, rfl, fun i j => ?_⟩
  unfold mock_entry baseline_temp hot_spot1 hot_spot2 spec_synthetic_entry
    center_x center_y
  ring

/-- Witness for C4 at `width = 2`, `height = 2`. -/
theorem synthetic_entry_matches_spec_formula_witness :
    (0 < 2 ∧ 0 < 2) ∧
    ∃ g : FloatGrid,
      create_mock_temperature_data initState (some (2, 2)) = some g ∧
      g.width = 2 ∧ g.height = 2 ∧
      ∀ i j : ℕ, g.entry i j = spec_synthetic_entry 2 2 i j :=
  ⟨⟨by decide, by decide⟩,
    synthetic_entry_matches_spec_formula initState 2 2 (by decide) (by decide)⟩

/-- C5: the synthetic generator is pure and deterministic — its output
depends only on the `(width, height)` input, not on any converter
state, so any two invocations with identical resolutions produce
identical grids. -/
theorem synthetic_generator_deterministic (s₁ s₂ : ConverterState)
    (width height : ℕ) :
    create_mock_temperature_data s₁ (some (width, height)) =
      create_mock_temperature_data s₂ (some (width, height)) := rfl

/-- C6 counterexample: decoding an empty byte buffer at a resolution
with `width = 0` and `height = 0` succeeds (returns a grid) instead of
failing with `EmptySource` / `InvalidResolution` — the code performs
no such validation. -/
theorem decode_validation_cex :
    (parse_rjpeg_with_sdk initState false [] (some (0, 0))).isSome = true := by
  simp [parse_rjpeg_with_sdk, create_mock_temperature_data]

/-- C6 amended: the decode path validates nothing — for every state,
SDK flag, byte buffer (empty or not) and provided resolution
(degenerate or not) it returns the synthetic grid successfully. -/
theorem decode_accepts_degenerate_inputs (st : ConverterState)
    (sdk : Bool) (data : List (Fin 256)) (width height : ℕ) :
    parse_rjpeg_with_sdk st sdk data (some (width, height)) =
      some ⟨width, height, fun i j => mock_entry width height i j⟩ := by
  cases sdk <;> rfl

/-- C7: model lookup uppercases its input before matching, so
`"m30t"` and `"M30T"` resolve identically; lookup fails exactly when
the uppercased id is outside `{M30T, H20T, H30T, M2EA}`, e.g. for
`"X9"`. -/
theorem model_lookup_spec :
    get_model_config "m30t" = get_model_config "M30T" ∧
    get_model_config "m30t" = some M30T_config ∧
    get_model_config "X9" = none ∧
    ∀ s : String, get_model_config s = none ↔ pyUpper s ∉ droneModelIds := by
  refine ⟨rfl, rfl, rfl, fun s => ?_⟩
  unfold get_model_config droneModelIds
  dsimp only
  split_ifs with h1 h2 h3 h4 <;> simp_all

/-- C8: resolution detection returns the container's dimensions when
the image opens, falls back to the default model's table resolution
(M30T: 1280×1024 in the converter's own table) when opening fails,
and never fails itself. -/
theorem resolution_detection_total :
    (∀ width height : ℕ,
      detect_image_resolution initState (some (width, height)) =
        some (width, height)) ∧
    detect_image_resolution initState none = some (1280, 1024) ∧
    ∀ r : Option (ℕ × ℕ), (detect_image_resolution initState r).isSome = true := by
  refine ⟨fun w h => rfl, rfl, fun r => ?_⟩
  cases r <;> rfl

/-- C10: neither the encoder nor the single-file conversion can
surface an exception: both are total `Bool`-valued functions that
return `true` exactly when every internal step succeeds and `false`
for every internal failure (directory creation, PIL image
construction, the TIFF write — including an unknown compression value
— or the temperature extraction). -/
theorem conversion_never_raises (env : SaveEnv) (cenv : ConvertEnv)
    (g g' : List (List ℚ)) :
    (save_temperature_tiff env g = true ↔
      env.mkdirFails = false ∧ env.fromarrayFails = false ∧
        env.pilSaveFails = false) ∧
    (save_temperature_tiff env g = false ↔
      ∃ e : SaveError, save_inner env g = .error e) ∧
    (convert_rjpeg_to_tiff cenv g' = true ↔
      cenv.extractFails = false ∧ save_temperature_tiff cenv.save g' = true) := by
  obtain ⟨m, f, p⟩ := env
  obtain ⟨x, ⟨m', f', p'⟩⟩ := cenv
  cases m <;> cases f <;> cases p <;> cases x <;> cases m' <;> cases f' <;>
    cases p' <;>
    simp [save_temperature_tiff, save_inner, convert_rjpeg_to_tiff]

/-- Each loop iteration adds exactly one to one of the two counters
and leaves `total` untouched: the fold's running result, from any
starting counts. -/
theorem batch_foldl_counts (jobs : List JobOutcome) (r : BatchResult) :
    jobs.foldl batch_step r =
      { success := r.success + jobs.countP (·.isSuccess),
        failed := r.failed + jobs.countP (fun j => !j.isSuccess),
        total := r.total } := by
  induction jobs generalizing r with
  | nil => simp
  | cons j rest ih =>
    cases j <;>
      simp [batch_step, ih, List.countP_cons, JobOutcome.isSuccess] <;>
      omega

/-- C9: for every completed batch run, `total` equals the number of
candidates fixed at discovery time, `success + failed = total`, each
per-file failure (a `False` return or a raised exception) contributes
one to `failed`, and the fold consumes every discovered candidate —
no job outcome aborts the run. -/
theorem batch_counts_consistent (jobs : List JobOutcome) :
    (batch_convert (some jobs)).total = jobs.length ∧
    (batch_convert (some jobs)).success + (batch_convert (some jobs)).failed =
      (batch_convert (some jobs)).total ∧
    (batch_convert (some jobs)).success = jobs.countP (·.isSuccess) ∧
    (batch_convert (some jobs)).failed =
      jobs.countP (fun j => !j.isSuccess) := by
  have hb : batch_convert (some jobs) =
      { success := jobs.countP (·.isSuccess),
        failed := jobs.countP (fun j => !j.isSuccess),
        total := jobs.length } := by
    have h := batch_foldl_counts jobs
      { success := 0, failed := 0, total := jobs.length }
    simpa [batch_convert] using h
  rw [hb]
  refine ⟨rfl, ?_, rfl, rfl⟩
  show jobs.countP (·.isSuccess) + jobs.countP (fun j => !j.isSuccess) =
    jobs.length
  simpa using
    (List.length_eq_countP_add_countP (l := jobs) (p := (·.isSuccess))).symm

/-! ### Arithmetic facts about the scaling path -/

/-- `ratTrunc` is the floor for nonnegative arguments and the
ceiling for negative ones (truncation toward zero). -/
theorem ratTrunc_eq_ite (q : ℚ) : ratTrunc q = if 0 ≤ q then ⌊q⌋ else ⌈q⌉ := by
  unfold ratTrunc
  by_cases h : 0 ≤ q
  · rw [if_pos h, Rat.floor_def]
    exact Int.tdiv_eq_ediv (Rat.num_nonneg.mpr h) (Int.ofNat_nonneg _)
  · rw [if_neg h]
    have hq : q ≤ 0 := le_of_not_le h
    have h1 : q.num.tdiv q.den = -((-q.num).tdiv q.den) := by
      rw [Int.neg_tdiv, neg_neg]
    have h2 : (-q.num).tdiv ((-q).den : ℤ) = (-q).num.tdiv ((-q).den : ℤ) := by
      rw [Rat.num_neg_eq_neg_num]
    have h3 : (-q).num.tdiv ((-q).den : ℤ) = ⌊-q⌋ := by
      rw [Rat.floor_def]
      exact Int.tdiv_eq_ediv (Rat.num_nonneg.mpr (by linarith)) (Int.ofNat_nonneg _)
    rw [h1, show ((q.den : ℤ)) = ((-q).den : ℤ) by rw [Rat.den_neg_eq_den], h2, h3,
      ← Int.ceil_neg, neg_neg]

/-- Truncation toward zero moves a rational by strictly less than 1. -/
theorem abs_sub_ratTrunc_lt_one (q : ℚ) : |q - (ratTrunc q : ℚ)| < 1 := by
  rw [ratTrunc_eq_ite]
  by_cases h : 0 ≤ q
  · rw [if_pos h]
    have h1 : (⌊q⌋ : ℚ) ≤ q := Int.floor_le q
    have h2 : q - 1 < (⌊q⌋ : ℚ) := Int.sub_one_lt_floor q
    rw [abs_lt]
    constructor <;> linarith
  · rw [if_neg h]
    have h1 : q ≤ (⌈q⌉ : ℚ) := Int.le_ceil q
    have h2 : (⌈q⌉ : ℚ) < q + 1 := Int.ceil_lt_add_one q
    rw [abs_lt]
    constructor <;> linarith

/-- Truncation of a rational in `[-16000, 16000]` stays well inside
the `int16` range. -/
theorem ratTrunc_int16_bounds {q : ℚ} (h1 : -16000 ≤ q) (h2 : q ≤ 16000) :
    -32768 ≤ ratTrunc q ∧ ratTrunc q ≤ 32767 := by
  rw [ratTrunc_eq_ite]
  split_ifs with h
  · have hu : (⌊q⌋ : ℚ) ≤ 16000 := le_trans (Int.floor_le q) h2
    have hl : (0 : ℤ) ≤ ⌊q⌋ := Int.floor_nonneg.mpr h
    have hu' : ⌊q⌋ ≤ (16000 : ℤ) := by exact_mod_cast hu
    omega
  · have hq : q ≤ 0 := le_of_not_le h
    have hu : q ≤ (⌈q⌉ : ℚ) := Int.le_ceil q
    have hl : (-16000 : ℚ) ≤ (⌈q⌉ : ℚ) := le_trans h1 hu
    have hl' : (-16000 : ℤ) ≤ ⌈q⌉ := by exact_mod_cast hl
    have hu' : ⌈q⌉ ≤ (0 : ℤ) := Int.ceil_le.mpr (by exact_mod_cast hq)
    omega

/-- On the `int16` range the two's-complement wrap is the identity. -/
theorem castInt16_eq_self {z : ℤ} (h1 : -32768 ≤ z) (h2 : z ≤ 32767) :
    castInt16 z = z := by
  unfold castInt16
  rw [Int.emod_eq_of_lt (by omega) (by omega)]
  omega

/-- Every model in the registry has its temperature range inside
`[-20, 1600]` °C. -/
theorem model_range_bounded {model : String} {c : DroneModelConfig}
    (h : get_model_config model = some c) :
    -20 ≤ c.temperature_range.1 ∧ c.temperature_range.2 ≤ 1600 := by
  unfold get_model_config at h
  dsimp only at h
  split_ifs at h <;> cases h <;>
    norm_num [M30T_config, H20T_config, H30T_config, M2EA_config]

/-- C1 counterexample: at `t = 25.75` (`103/4`) the persisted value
is `257` — `numpy`'s cast truncates `257.5` — while `round(t * 10)`
is `258`: the encoder does not implement the claimed rounding. -/
theorem saved_value_round_cex :
    savedRaster cleanSaveEnv [[(103 / 4 : ℚ)]] = some [[257]] ∧
    spec_scaled (103 / 4 : ℚ) = 258 := by
  constructor
  · have ht : ratTrunc ((103 / 4 : ℚ) * 10) = 257 := by
      rw [ratTrunc_eq_ite, if_pos (by norm_num)]
      rw [show ((103 / 4 : ℚ) * 10) = 515 / 2 by norm_num]
      norm_num
    simp [savedRaster, save_inner, cleanSaveEnv, scaleGrid, stored_value, Except.toOption,
      castInt16, ht]
  · rw [spec_scaled, show ((103 / 4 : ℚ) * 10) = 515 / 2 by norm_num,
      round_eq]
    norm_num

/-- C1 amended: the encoder transforms each grid temperature `t` into
the persisted 16-bit value obtained by truncating `t * 10` toward
zero and narrowing with a two's-complement wrap (the C cast semantics
of `astype(np.int16)`), not by `round(t * 10)`. -/
theorem saved_value_is_truncated_cast (env : SaveEnv)
    (g : List (List ℚ)) (out : List (List ℤ)) (row : List ℚ) (t : ℚ)
    (i j : ℕ) (hsave : savedRaster env g = some out)
    (hrow : g[i]? = some row) (ht : row[j]? = some t) :
    ∃ orow : List ℤ, out[i]? = some orow ∧
      orow[j]? = some (castInt16 (ratTrunc (t * 10))) := by
  have hout : out = scaleGrid g := by
    unfold savedRaster save_inner at hsave
    split_ifs at hsave <;>
      simp_all [Except.toOption]
  subst hout
  refine ⟨row.map stored_value, ?_, ?_⟩
  · rw [scaleGrid, List.getElem?_map, hrow, Option.map_some']
  · rw [List.getElem?_map, ht, Option.map_some', stored_value]

/-- Witness for C1's amended claim at `t = 27` in a 1×1 grid with all
external calls succeeding. -/
theorem saved_value_is_truncated_cast_witness :
    ∃ orow : List ℤ, ([[270]] : List (List ℤ))[0]? = some orow ∧
      orow[0]? = some (castInt16 (ratTrunc ((27 : ℚ) * 10))) :=
  saved_value_is_truncated_cast cleanSaveEnv [[27]] [[270]] [27] 27 0 0
    (by
      have ht : ratTrunc ((27 : ℚ) * 10) = 270 := by
        rw [ratTrunc_eq_ite, if_pos (by norm_num),
          show ((27 : ℚ) * 10) = 270 by norm_num]
        norm_num
      simp [savedRaster, save_inner, cleanSaveEnv, scaleGrid, stored_value, Except.toOption,
        castInt16, ht])
    rfl rfl

/-- C2 counterexample: the 1×1 grid holding `3300.0` °C scales to
`33000`, outside `int16`; the encoder neither fails nor withholds the
file — it returns `True` and persists the wrapped value `-32536`. -/
theorem encode_overflow_cex :
    save_temperature_tiff cleanSaveEnv [[(3300 : ℚ)]] = true ∧
    savedRaster cleanSaveEnv [[(3300 : ℚ)]] = some [[-32536]] ∧
    spec_scaled (3300 : ℚ) = 33000 ∧ (32767 : ℤ) < 33000 := by
  have ht : ratTrunc ((3300 : ℚ) * 10) = 33000 := by
    rw [ratTrunc_eq_ite, if_pos (by norm_num),
      show ((3300 : ℚ) * 10) = 33000 by norm_num]
    norm_num
  refine ⟨rfl, ?_, ?_, by norm_num⟩
  · simp [savedRaster, save_inner, cleanSaveEnv, scaleGrid, stored_value, Except.toOption,
      castInt16, ht]
  · rw [spec_scaled, show ((3300 : ℚ) * 10) = 33000 by norm_num, round_eq]
    norm_num

/-- C2 amended: the encoder performs no overflow detection at all —
for every grid (out-of-range scaled values included) it succeeds
whenever the external I/O calls succeed, persisting the raster with
each scaled value wrapped into `int16`. -/
theorem encode_ignores_overflow (g : List (List ℚ)) :
    save_temperature_tiff cleanSaveEnv g = true ∧
    savedRaster cleanSaveEnv g = some (scaleGrid g) := ⟨rfl, rfl⟩

/-- C3 counterexample: `t = 20.0625` (`321/16`) is inside M30T's
declared range, yet the persisted value decodes to `20.0`: the error
is `1/16 = 0.0625 > 0.05`, violating the claimed ±0.05 °C law. -/
theorem roundtrip_half_precision_cex :
    validate_temperature_range (321 / 16) "M30T" = some true ∧
    ¬(|(321 / 16 : ℚ) - decoded_value (321 / 16)| ≤ 1 / 20) := by
  have hm : get_model_config "M30T" = some M30T_config := rfl
  have ht : ratTrunc ((321 / 16 : ℚ) * 10) = 200 := by
    rw [ratTrunc_eq_ite, if_pos (by norm_num),
      show ((321 / 16 : ℚ) * 10) = 1605 / 8 by norm_num]
    norm_num
  constructor
  · rw [validate_temperature_range, hm, Option.map_some']
    norm_num [M30T_config]
  · rw [decoded_value, stored_value, ht,
      show castInt16 200 = 200 from castInt16_eq_self (by norm_num) (by norm_num)]
    norm_num [abs_le]

/-- C3 amended: for every temperature inside a model's declared
range, scaling, persisting and reading back the 16-bit value divided
by 10 reconstructs the original within strictly less than 0.1 °C (the
truncation bound); the claimed ±0.05 °C bound only holds for a
rounding encoder. -/
theorem roundtrip_within_tenth (model : String) (t : ℚ)
    (h : validate_temperature_range t model = some true) :
    |t - decoded_value t| < 1 / 10 := by
  obtain ⟨c, hc, hrange⟩ := Option.map_eq_some'.mp h
  have hb := model_range_bounded hc
  have hr : c.temperature_range.1 ≤ t ∧ t ≤ c.temperature_range.2 :=
    of_decide_eq_true hrange
  have hlo : (-16000 : ℚ) ≤ t * 10 := by nlinarith [hb.1, hb.2, hr.1, hr.2]
  have hhi : t * 10 ≤ 16000 := by nlinarith [hb.1, hb.2, hr.1, hr.2]
  obtain ⟨hzlo, hzhi⟩ := ratTrunc_int16_bounds hlo hhi
  have hcast : castInt16 (ratTrunc (t * 10)) = ratTrunc (t * 10) :=
    castInt16_eq_self hzlo hzhi
  have habs := abs_sub_ratTrunc_lt_one (t * 10)
  rw [decoded_value, stored_value, hcast]
  rw [abs_lt] at habs ⊢
  constructor <;> [nlinarith [habs.1, habs.2]; nlinarith [habs.1, habs.2]]

/-- Witness for C3's amended claim at `t = 25` °C on model M30T. -/
theorem roundtrip_within_tenth_witness :
    validate_temperature_range 25 "M30T" = some true ∧
    |(25 : ℚ) - decoded_value 25| < 1 / 10 :=
  ⟨by decide, roundtrip_within_tenth "M30T" 25 (by decide)⟩

end ThermalConverter
